import Mathlib

/-!
Verification of the TradeLogic stock-analysis workbench core.

This file gives a shallow embedding of the repository's core logic and
settles the frozen claims about it:

* `services/geminiService.ts` — the analysis prompt composer (`analyzeStock`),
  the post-parse stamping of `id`/`timestamp`/`sources`, the declared
  response-schema required keys, and `runConsistencyCheck`.
* the application shell (`App`) — the Case Vault operations `saveToVault`,
  `removeFromVault`, `handleImportVault`.
* the `CaseVault` component — the identity key `item.id || item.ticker`.
* the `InputForm` component — the capital-fit advisory effect and the
  step/submission validity predicate `isStepValid`.

Conventions of the embedding:
* JavaScript runtime values flowing through `JSON.parse` / object spread are
  modelled by the inductive `Json` below; JSON numbers are restricted to
  integers (no claim depends on fractional JSON payload numbers).
* `crypto.randomUUID()` and `Date.now()` are nondeterministic inputs of the
  program; the embedded functions take the generated id(s) and the capture
  time as explicit parameters.
* The external inference call is opaque: functions are embedded up to the
  request they issue (prompt text and decoding settings), and the response
  side takes the already-parsed body (`Option Json`, `none` = the response
  text was not valid JSON) as input.
-/

namespace TradeLogic

/-! ## JSON value model -/

/-- A parsed JSON value (the result of `JSON.parse`), as handled by the
untyped paths of the app (vault import, response cast). Numbers are
modelled as integers. -/
inductive Json where
  | null : Json
  | bool (b : Bool) : Json
  | num (n : Int) : Json
  | str (s : String) : Json
  | arr (elems : List Json) : Json
  | obj (fields : List (String × Json)) : Json

/-- JavaScript truthiness of a JSON value (`undefined`, i.e. an absent key,
is represented by callers as `Json.null`, which is falsy like `undefined`). -/
def jsTruthy : Json → Bool
  | .null => false
  | .bool b => b
  | .num n => n != 0
  | .str s => s != ""
  | .arr _ => true
  | .obj _ => true

/-- First-match lookup of a key in a JSON object's field list. -/
def jsonLookup (fields : List (String × Json)) (k : String) : Option Json :=
  (fields.find? (fun p => p.1 == k)).map (fun p => p.2)

/-- Property access `value[k]`: `some` for an object that has the key,
`none` (JavaScript `undefined`) otherwise. -/
def jsonGet : Json → String → Option Json
  | .obj fields, k => jsonLookup fields k
  | _, _ => none

/-- Overwrite (or add) a key in an object's field list, as the object spread
`{ ...o, k: v }` does. The spread keeps an overwritten key at its original
position; this model moves it to the end, which is lookup-equivalent since
the key occurs once afterwards and no claim observes key order. -/
def setKey (fields : List (String × Json)) (k : String) (v : Json) :
    List (String × Json) :=
  fields.filter (fun p => p.1 != k) ++ [(k, v)]

/-- `{ ...data, k: v }`. Spreading a non-object primitive contributes no
enumerable keys, leaving an object holding only the explicit key; spreading
an array or a string would also copy index keys, which no claim observes
and which the vault/gateway paths never rely on. -/
def jsonSet : Json → String → Json → Json
  | .obj fields, k, v => .obj (setKey fields k v)
  | _, k, v => .obj [(k, v)]

/-- A JavaScript runtime error: reading a property of `undefined` or
`null` (e.g. `sorted[0].ticker` on an empty array, or `c.id` on a
null snapshot entry) raises a `TypeError`. -/
inductive JsError where
  | typeError : JsError
deriving DecidableEq

/-! ## Case Vault operations (application shell `App`)

The vault state is declared as `AnalysisResult[]` in the source, but
`handleImportVault` splices arbitrary parsed JSON entries into it through an
`any` cast, so vault entries are modelled as `Json` values. -/

/-- App `saveToVault` stamping: `{ ...result, id: crypto.randomUUID(),
timestamp: Date.now() }` — the entry is always re-keyed with a fresh id and
the capture time. -/
def saveStamp (result : Json) (freshId : String) (now : Int) : Json :=
  jsonSet (jsonSet result "id" (.str freshId)) "timestamp" (.num now)

/-- App `saveToVault`: prepends the re-stamped entry to the vault
(`[uniqueResult, ...vaultCases]`). `freshId` models the
`crypto.randomUUID()` draw and `now` models `Date.now()`. -/
def saveToVault (freshId : String) (now : Int) (vaultCases : List Json)
    (result : Json) : List Json :=
  saveStamp result freshId now :: vaultCases

/-- The boolean value of the JavaScript test `c.id !== id` being FALSE, for
`id : string`: strict equality holds exactly when `c.id` is a string equal
to `id`. -/
def idEqString : Option Json → String → Bool
  | some (.str s), id => s == id
  | _, _ => false

/-- App `removeFromVault`: `vaultCases.filter(c => c.id !== id)`. Note the
filter tests the `id` field only; it never falls back to `ticker`. -/
def removeFromVault (vaultCases : List Json) (id : String) : List Json :=
  vaultCases.filter (fun c => !(idEqString (jsonGet c "id") id))

/-- The user-visible outcome of App `handleImportVault`:
`alert("Invalid JSON file.")` from the catch block (reached both when
`JSON.parse` throws and when the per-entry mapping throws a `TypeError` on
a null entry), the success alert `alert("Successfully imported N cases.")`,
or no feedback at all (a parsed body that is not an array falls through
both branches silently). -/
inductive ImportOutcome where
  | alertInvalidJson : ImportOutcome
  | alertImported (count : Nat) : ImportOutcome
  | silentNoop : ImportOutcome
deriving DecidableEq

/-- Per-entry import mapping `(c) => ({ ...c, id: c.id || crypto.randomUUID() })`:
evaluating `c.id` throws a `TypeError` when the entry is JSON null (the
only JSON value whose property access throws); otherwise the entry keeps
its own `id` whenever that value is truthy, and only a falsy or absent
`id` is replaced by a fresh one. -/
def importEntry (freshId : String) (c : Json) : Except JsError Json :=
  match c with
  | .null => .error .typeError
  | _ =>
      let cid := (jsonGet c "id").getD .null
      .ok (jsonSet c "id" (if jsTruthy cid then cid else .str freshId))

/-- `json.map((c) => ({ ...c, id: c.id || crypto.randomUUID() }))`: the map
evaluates entries in index order and the first `TypeError` (a null entry)
propagates out, aborting the whole map. `fresh` supplies the
`crypto.randomUUID()` draw for each index. -/
def mapImportEntries (fresh : Nat → String) (i : Nat) :
    List Json → Except JsError (List Json)
  | [] => .ok []
  | c :: cs =>
      match importEntry (fresh i) c with
      | .error e => .error e
      | .ok c' =>
          match mapImportEntries fresh (i + 1) cs with
          | .error e => .error e
          | .ok cs' => .ok (c' :: cs')

/-- App `handleImportVault`, after file reading: `parsed` is the result of
`JSON.parse` on the file text (`none` when parsing threw, which the catch
turns into the invalid-file alert). An array is mapped entry by entry
inside the same try block: a `TypeError` thrown by the mapping (a null
entry) reaches the same catch — invalid-file alert, vault unchanged —
while a throw-free map is merged wholesale, appended after the existing
entries with no per-entry shape validation. A non-array parse is a silent
no-op. -/
def handleImportVault (fresh : Nat → String) (vaultCases : List Json)
    (parsed : Option Json) : List Json × ImportOutcome :=
  match parsed with
  | none => (vaultCases, .alertInvalidJson)
  | some (.arr entries) =>
      match mapImportEntries fresh 0 entries with
      | .error _ => (vaultCases, .alertInvalidJson)
      | .ok stamped => (vaultCases ++ stamped, .alertImported entries.length)
  | some _ => (vaultCases, .silentNoop)

/-- CaseVault identity key `item.id || item.ticker` (an absent key reads as
`undefined`, modelled `Json.null`, which is falsy). -/
def entryKey (item : Json) : Json :=
  let i := (jsonGet item "id").getD .null
  if jsTruthy i then i else (jsonGet item "ticker").getD .null

/-! ## Typed data model (`types.ts`) -/

inductive CapitalTier where
  | MICRO | RETAIL | HIGH_NET | INSTITUTIONAL
deriving DecidableEq

inductive RiskProfile where
  | CONSERVATIVE | BALANCED | AGGRESSIVE
deriving DecidableEq

/-- `StockAnalysisInput.fundamentals` — eight numeric-string ratios, in the
declaration (insertion) order of the source object literal. -/
structure Fundamentals where
  roe : String
  der : String
  pbv : String
  per : String
  npm : String
  growth : String
  cfo : String
  fcf : String
deriving DecidableEq

/-- `StockAnalysisInput.bandarmology`. `brokerSummaryVal` is a 0–100 integer
(produced by `parseInt` on a range slider). -/
structure Bandarmology where
  orderBookBid : String
  orderBookAsk : String
  tradeBookBid : String
  tradeBookAsk : String
  brokerSummaryVal : Int
  topBrokers : String
  duration : String
  bandarAvgPrice : String
deriving DecidableEq

structure StockAnalysisInput where
  ticker : String
  price : String
  capital : String
  capitalTier : CapitalTier
  riskProfile : RiskProfile
  fundamentals : Fundamentals
  bandarmology : Bandarmology
  rawIntelligenceData : String
deriving DecidableEq

/-- `TradePlan`. The `status` enum ('RECOMMENDED' | 'POSSIBLE' | 'FORBIDDEN')
is kept as a string, as no claim settled here branches on it. -/
structure TradePlan where
  verdict : String
  entry : String
  tp : String
  sl : String
  reasoning : String
  status : String
deriving DecidableEq

structure PriceInfo where
  current : String
  bandarAvg : String
  diffPercent : Int
  status : String
deriving DecidableEq

structure MarketCapAnalysis where
  category : String
  behavior : String
deriving DecidableEq

structure SupplyDemand where
  bidStrength : Int
  offerStrength : Int
  verdict : String
deriving DecidableEq

structure Prediction where
  direction : String
  probability : Int
  reasoning : String
deriving DecidableEq

structure StressTest where
  passed : Bool
  score : Int
  details : String
deriving DecidableEq

structure BrokerAnalysis where
  classification : String
  insight : String
deriving DecidableEq

structure Strategy where
  bestTimeframe : String
  shortTerm : TradePlan
  mediumTerm : TradePlan
  longTerm : TradePlan
deriving DecidableEq

structure GroundingSource where
  uri : String
  title : String
deriving DecidableEq

/-- `AnalysisResult` from `types.ts`. JavaScript `number` fields are
modelled as `Int` (the only numeric field any claim touches is `timestamp`,
a millisecond epoch integer). -/
structure AnalysisResult where
  id : String
  timestamp : Int
  ticker : String
  priceInfo : PriceInfo
  marketCapAnalysis : MarketCapAnalysis
  supplyDemand : SupplyDemand
  prediction : Prediction
  stressTest : StressTest
  brokerAnalysis : BrokerAnalysis
  summary : String
  bearCase : String
  strategy : Strategy
  fullAnalysis : String
  sources : List GroundingSource
deriving DecidableEq

/-! ## Request composer (`services/geminiService.ts`, `analyzeStock`) -/

/-- Template-literal interpolation of the enum-typed fields. -/
def riskProfileName : RiskProfile → String
  | .CONSERVATIVE => "CONSERVATIVE"
  | .BALANCED => "BALANCED"
  | .AGGRESSIVE => "AGGRESSIVE"

def capitalTierName : CapitalTier → String
  | .MICRO => "MICRO"
  | .RETAIL => "RETAIL"
  | .HIGH_NET => "HIGH_NET"
  | .INSTITUTIONAL => "INSTITUTIONAL"

/-- The `riskInstruction` ternary at the top of `analyzeStock`. -/
def riskInstruction (rp : RiskProfile) : String :=
  match rp with
  | .CONSERVATIVE =>
      "RISK PROFILE: CONSERVATIVE (HAWK). Penalize high PBV/PER severely if Growth is < 15%. Require positive CFO. Be skeptical of unproven breakouts."
  | .AGGRESSIVE =>
      "RISK PROFILE: AGGRESSIVE (BULL). Tolerate high Valuation if Growth > 20% or Momentum is very strong. Focus on Future Value over current metrics."
  | .BALANCED => "RISK PROFILE: BALANCED. Standard institutional weighting."

/-- The `prompt` template literal of `analyzeStock`, pieces in source order.
Interpolated fields: ticker, price, riskProfile, capital, capitalTier,
riskInstruction, fundamentals roe/der/pbv/per/cfo/fcf, bandarmology
brokerSummaryVal/topBrokers/bandarAvgPrice/orderBookBid/orderBookAsk/
tradeBookAsk/tradeBookBid, rawIntelligenceData. The template has no
placeholder for `fundamentals.npm`, `fundamentals.growth`, or
`bandarmology.duration`. -/
def analysisPrompt (input : StockAnalysisInput) : String :=
  "\n    INSTITUTIONAL AUDIT REQUEST: " ++ input.ticker ++
  " @ " ++ input.price ++
  "\n    CLIENT MANDATE: " ++ riskProfileName input.riskProfile ++
  "\n    CLIENT CAPITAL: " ++ input.capital ++
  " IDR (Tier selected: " ++ capitalTierName input.capitalTier ++
  ")\n    \n    [LOGIC INJECTION]\n    " ++ riskInstruction input.riskProfile ++
  "\n\n    [FUNDAMENTAL DATA - AUDITED]\n    ROE: " ++ input.fundamentals.roe ++
  "% | DER: " ++ input.fundamentals.der ++
  "x | PBV: " ++ input.fundamentals.pbv ++
  "x\n    PER: " ++ input.fundamentals.per ++
  "x | CFO (Operating Cash): " ++ input.fundamentals.cfo ++
  " | FCF (Free Cash): " ++ input.fundamentals.fcf ++
  "\n    \n    [MARKET STRUCTURE DATA]\n    Bandar Score: " ++
    toString input.bandarmology.brokerSummaryVal ++
  " | Top Actors: " ++ input.bandarmology.topBrokers ++
  " | Avg Cost: " ++ input.bandarmology.bandarAvgPrice ++
  "\n    Bid Depth: " ++ input.bandarmology.orderBookBid ++
  " \n    Offer Depth: " ++ input.bandarmology.orderBookAsk ++
  "\n    Haka (Aggressive Buy): " ++ input.bandarmology.tradeBookAsk ++
  " \n    Haki (Aggressive Sell): " ++ input.bandarmology.tradeBookBid ++
  "\n    \n    [INTELLIGENCE REPORT]\n    " ++ input.rawIntelligenceData ++
  "\n    "

/-- `s` occurs verbatim as a contiguous substring of `t`. -/
def IsSubstr (s t : String) : Prop :=
  ∃ a b : List Char, t.data = a ++ (s.data ++ b)

/-! ## Analysis gateway response processing (`analyzeStock`, lines 179–180)

`const data = JSON.parse(response.text) as AnalysisResult;`
`return { ...data, id: crypto.randomUUID(), timestamp: Date.now(), sources: [] };`

The cast performs no structural validation: the only failure the gateway can
raise locally is `JSON.parse` throwing on non-JSON text. -/

/-- The required top-level keys declared by `responseSchema.required`
(`services/geminiService.ts`, line 130). The schema is sent to the external
service with the request; it is not re-checked locally. -/
def analysisRequiredKeys : List String :=
  ["ticker", "priceInfo", "marketCapAnalysis", "supplyDemand", "prediction",
   "stressTest", "brokerAnalysis", "summary", "bearCase", "strategy",
   "fullAnalysis"]

/-- The required keys of `responseSchema` that a payload lacks. -/
def missingRequiredKeys (payload : Json) : List String :=
  analysisRequiredKeys.filter (fun k => (jsonGet payload k).isNone)

/-- The spread-and-stamp on the parsed response body:
`{ ...data, id: freshId, timestamp: now, sources: [] }` on an object's
field list. All three keys are written unconditionally. -/
def stampFields (fields : List (String × Json)) (freshId : String)
    (now : Int) : List (String × Json) :=
  setKey (setKey (setKey fields "id" (.str freshId)) "timestamp" (.num now))
    "sources" (.arr [])

/-- `{ ...data, id, timestamp, sources: [] }` on an arbitrary parsed value. -/
def stampResult (data : Json) (freshId : String) (now : Int) : Json :=
  match data with
  | .obj fields => .obj (stampFields fields freshId now)
  | _ => .obj (stampFields [] freshId now)

/-- The one local failure `analyzeStock` can produce while handling a
received response body. -/
inductive AnalyzeFailure where
  | jsonParseFailure : AnalyzeFailure
deriving DecidableEq

/-- The response-handling tail of `analyzeStock`: `parsed` is the outcome of
`JSON.parse(response.text)` (`none` when it threw, which the surrounding
try/catch rethrows); any successfully parsed value — conforming to
`responseSchema` or not — is stamped and returned. -/
def processAnalyzeResponse (parsed : Option Json) (freshId : String)
    (now : Int) : Except AnalyzeFailure Json :=
  match parsed with
  | none => .error .jsonParseFailure
  | some data => .ok (stampResult data freshId now)

/-! ## Consistency engine (`runConsistencyCheck`) -/

/-- Insert `x` into `l` before the first element whose timestamp is not
smaller, matching one insertion step of a stable ascending sort. -/
def sortInsert (x : AnalysisResult) : List AnalysisResult →
    List AnalysisResult
  | [] => [x]
  | y :: ys =>
      if x.timestamp ≤ y.timestamp then x :: y :: ys else y :: sortInsert x ys

/-- `history.sort((a, b) => a.timestamp - b.timestamp)`: ECMAScript
`Array.prototype.sort` is a stable sort, and with this comparator it orders
by timestamp ascending keeping the original relative order of equal
timestamps. A stable sort for a total preorder key is a unique function, so
it is embedded as stable insertion sort (proved sorted, permuting and
stable below). -/
def consistencySort : List AnalysisResult → List AnalysisResult
  | [] => []
  | x :: xs => sortInsert x (consistencySort xs)

/-- The request issued by `runConsistencyCheck` to
`ai.models.generateContent`. `temperature: 0.0` is modelled as the integer
`0`; `seed: 42069` as given. -/
structure ConsistencyRequest where
  model : String
  prompt : String
  temperature : Int
  seed : Int
deriving DecidableEq

/-- `runConsistencyCheck`, embedded up to the external call it issues:
sorts by timestamp, then builds the prompt from `sorted[0].ticker` and
`JSON.stringify(sorted)` (serialization abstracted as `serialize`). There
is no length or same-ticker precondition anywhere in the function: any
nonempty history reaches the external call; an empty history throws a
`TypeError` on `sorted[0].ticker` before any call is issued. -/
def runConsistencyCheckRequest (serialize : List AnalysisResult → String)
    (history : List AnalysisResult) : Except JsError ConsistencyRequest :=
  let sorted := consistencySort history
  match sorted with
  | [] => .error .typeError
  | first :: _ =>
      .ok { model := "gemini-3-flash-preview"
            prompt := "Analisa tren konsistensi untuk " ++ first.ticker ++
              ". Data: " ++ serialize sorted ++
              ". Gunakan bahasa profesional dan berikan outlook trend jangka panjang."
            temperature := 0
            seed := 42069 }

/-! ## Input form logic (`InputForm` component) -/

/-- Decimal value of a digit list, most significant first. -/
def digitsVal (l : List Char) : Nat :=
  l.foldl (fun a c => a * 10 + (c.toNat - 48)) 0

/-- Models JavaScript `parseFloat` on plain decimal numeric literals
(optional sign, integer part, optional fractional part): `none` stands for
`NaN`. The claims quantify over numeric strings, where this parser and
`parseFloat` agree; `parseFloat`'s salvaging of numeric prefixes of
non-numeric text and exponent notation are outside every claim. The value
is exact (`ℚ`) rather than IEEE-rounded; the capital thresholds compared
against are integers far below 2^53, where the distinction is
unobservable for the inputs the claims mention. -/
def parseDec (s : String) : Option ℚ :=
  let split :=
    match s.data with
    | '-' :: rest => (true, rest)
    | l => (false, l)
  let neg := split.1
  let ip := split.2.takeWhile (fun c => c.isDigit)
  let rest := split.2.dropWhile (fun c => c.isDigit)
  match rest with
  | [] =>
      if ip.isEmpty then none
      else
        let v : ℚ := (digitsVal ip : ℚ)
        some (if neg then -v else v)
  | '.' :: fp =>
      if fp.all (fun c => c.isDigit) && !(ip.isEmpty && fp.isEmpty) then
        let v : ℚ := (digitsVal ip : ℚ) +
          (digitsVal fp : ℚ) / ((10 : ℚ) ^ fp.length)
        some (if neg then -v else v)
      else none
  | _ => none

/-- The three advisory messages the capital-validation effect can set
(`setCapitalWarning`):
`criticalMicro` = "CRITICAL: Nominal modal terlalu besar untuk Tier MICRO.",
`warningRetail` = "WARNING: Modal Anda mendekati High Net Worth. Pertimbangkan upgrade Tier.",
`invalidInstitutional` = "INVALID: Tier Institutional butuh modal minimal 1 Miliar.". -/
inductive CapitalWarning where
  | criticalMicro : CapitalWarning
  | warningRetail : CapitalWarning
  | invalidInstitutional : CapitalWarning
deriving DecidableEq

/-- The capital-validation effect of `InputForm` (lines 106–130): empty
capital clears the advisory; otherwise `parseFloat` the capital and test
the three tier/amount rules in order, first match winning. A `NaN` amount
(non-numeric capital) fails every comparison and clears the advisory. The
computed advisory depends on nothing besides `(capital, tier)`. -/
def validateCapitalFit (capital : String) (tier : CapitalTier) :
    Option CapitalWarning :=
  if capital = "" then none
  else
    match parseDec capital with
    | none => none
    | some amount =>
        if tier = .MICRO ∧ amount > 150000000 then some .criticalMicro
        else if tier = .RETAIL ∧ amount > 600000000 then some .warningRetail
        else if tier = .INSTITUTIONAL ∧ amount < 1000000000 then
          some .invalidInstitutional
        else none

/-- Spec-side restatement of the §4.1 advisory rules, over the numeric
amount directly, for comparison with `validateCapitalFit`. -/
def capitalFitSpec (amount : ℚ) (tier : CapitalTier) :
    Option CapitalWarning :=
  if tier = .MICRO ∧ amount > 150000000 then some .criticalMicro
  else if tier = .RETAIL ∧ amount > 600000000 then some .warningRetail
  else if tier = .INSTITUTIONAL ∧ amount < 1000000000 then
    some .invalidInstitutional
  else none

/-- `Object.values(formData.fundamentals)`, in the insertion order of the
`INITIAL_STATE.fundamentals` object literal. -/
def fundamentalsValues (f : Fundamentals) : List String :=
  [f.roe, f.der, f.pbv, f.per, f.npm, f.growth, f.cfo, f.fcf]

/-- `isStepValid(s)` of `InputForm` (lines 156–162). Steps 1 and 3 return
strings in the source and are consumed for their truthiness (a string is
truthy exactly when nonempty); the embedding returns that Bool directly. -/
def isStepValid (formData : StockAnalysisInput) : Nat → Bool
  | 1 => formData.ticker != "" && (formData.price != "" && formData.capital != "")
  | 2 => (fundamentalsValues formData.fundamentals).all (fun v => v != "")
  | 3 => formData.bandarmology.topBrokers != "" &&
      formData.bandarmology.bandarAvgPrice != ""
  | 4 => decide (50 < formData.rawIntelligenceData.length)
  | _ => false

/-- The form `onSubmit` gate (line 277):
`isStepValid(1) && isStepValid(2) && isStepValid(3) && isStepValid(4)`. -/
def submissionEligible (formData : StockAnalysisInput) : Bool :=
  isStepValid formData 1 && isStepValid formData 2 &&
    isStepValid formData 3 && isStepValid formData 4

/-! ## Concrete fixtures used by witnesses and counterexamples -/

/-- An all-blank trade plan for fixture results. -/
def blankPlan : TradePlan :=
  { verdict := "", entry := "", tp := "", sl := "", reasoning := "", status := "" }

/-- A fixture `AnalysisResult` with the given ticker and timestamp. -/
def mkRes (ticker : String) (ts : Int) : AnalysisResult :=
  { id := "", timestamp := ts, ticker := ticker,
    priceInfo := { current := "", bandarAvg := "", diffPercent := 0, status := "" },
    marketCapAnalysis := { category := "", behavior := "" },
    supplyDemand := { bidStrength := 0, offerStrength := 0, verdict := "" },
    prediction := { direction := "", probability := 0, reasoning := "" },
    stressTest := { passed := true, score := 0, details := "" },
    brokerAnalysis := { classification := "", insight := "" },
    summary := "", bearCase := "",
    strategy := { bestTimeframe := "", shortTerm := blankPlan,
                  mediumTerm := blankPlan, longTerm := blankPlan },
    fullAnalysis := "", sources := [] }

/-- A fixture serializer standing in for `JSON.stringify`. -/
def serializeFix : List AnalysisResult → String := fun _ => "DATA"

/-- A fixture fresh-id supply standing in for `crypto.randomUUID()`. -/
def freshFix : Nat → String := fun n => "FRESH-" ++ toString n

/-- A submission-eligible input whose `npm` value is the character `†`,
which occurs nowhere else in the composed prompt. -/
def c3Input : StockAnalysisInput :=
  { ticker := "BBCA", price := "9000", capital := "100000000",
    capitalTier := .RETAIL, riskProfile := .BALANCED,
    fundamentals := { roe := "20", der := "1", pbv := "4", per := "22",
                      npm := "†", growth := "8", cfo := "30", fcf := "25" },
    bandarmology := { orderBookBid := "bidbook", orderBookAsk := "askbook",
                      tradeBookBid := "hakibook", tradeBookAsk := "hakabook",
                      brokerSummaryVal := 50, topBrokers := "ZP, AK, BK",
                      duration := "Last 3 Months", bandarAvgPrice := "8900" },
    rawIntelligenceData := String.mk (List.replicate 51 'x') }

/-- A form state meeting every non-length requirement, with
`rawIntelligenceData` of exactly 50 characters. -/
def c8Input50 : StockAnalysisInput :=
  { ticker := "BBCA", price := "9000", capital := "100000000",
    capitalTier := .RETAIL, riskProfile := .BALANCED,
    fundamentals := { roe := "20", der := "1", pbv := "4", per := "22",
                      npm := "21", growth := "8", cfo := "30", fcf := "25" },
    bandarmology := { orderBookBid := "", orderBookAsk := "",
                      tradeBookBid := "", tradeBookAsk := "",
                      brokerSummaryVal := 50, topBrokers := "ZP, AK, BK",
                      duration := "", bandarAvgPrice := "8900" },
    rawIntelligenceData := String.mk (List.replicate 50 'x') }

/-- The same form state with `rawIntelligenceData` of exactly 51 characters. -/
def c8Input51 : StockAnalysisInput :=
  { c8Input50 with rawIntelligenceData := String.mk (List.replicate 51 'x') }

/-- A well-formed vault entry whose id is "A". -/
def c6Existing : Json :=
  .obj [("id", .str "A"), ("ticker", .str "BBCA")]

/-- An imported snapshot entry carrying the same id "A". -/
def c6Dup : Json :=
  .obj [("id", .str "A"), ("ticker", .str "BBCA")]

/-- A result-shaped import snapshot entry. -/
def c2Good : Json :=
  .obj [("id", .str "G1"), ("ticker", .str "BBCA")]

/-- A malformed (non-record) import snapshot entry. -/
def c2Bad : Json := .num 5

/-- A legacy vault entry that has a ticker but no id. -/
def c10Legacy : Json := .obj [("ticker", .str "BBCA")]

/-- A vault entry with id "X", for the remove no-op witness. -/
def c10Keyed : Json := .obj [("id", .str "X"), ("ticker", .str "TLKM")]

/-! ## Helper lemmas -/

theorem find?_key_of_filter_ne (fields : List (String × Json)) (k : String) :
    List.find? (fun p => p.1 == k) (fields.filter (fun p => p.1 != k)) =
      none := by
  rw [List.find?_eq_none]
  intro x hx
  have hne := (List.mem_filter.mp hx).2
  simp only [bne_iff_ne, ne_eq, decide_eq_true_eq] at hne
  simpa using hne

theorem find?_key_filter_other (fields : List (String × Json)) (k k' : String)
    (h : k' ≠ k) :
    List.find? (fun p => p.1 == k') (fields.filter (fun p => p.1 != k)) =
      List.find? (fun p => p.1 == k') fields := by
  have hkk : (k == k') = false := by
    simp only [beq_eq_false_iff_ne, ne_eq]
    exact fun hh => h hh.symm
  induction fields with
  | nil => rfl
  | cons p rest ih =>
      by_cases hp : p.1 = k
      · have hk' : (p.1 == k') = false := by
          simp only [beq_eq_false_iff_ne, ne_eq, hp]
          exact fun hh => h hh.symm
        simp [List.filter_cons, List.find?_cons, hp, hk', hkk, ih]
      · by_cases hq : p.1 = k'
        · simp [List.filter_cons, List.find?_cons, hp, hq, h, ih]
        · simp [List.filter_cons, List.find?_cons, hp, hq, ih]

theorem jsonLookup_setKey_self (fields : List (String × Json)) (k : String)
    (v : Json) : jsonLookup (setKey fields k v) k = some v := by
  unfold jsonLookup setKey
  rw [List.find?_append, find?_key_of_filter_ne]
  simp [List.find?]

theorem jsonLookup_setKey_ne (fields : List (String × Json)) (k k' : String)
    (v : Json) (h : k' ≠ k) :
    jsonLookup (setKey fields k v) k' = jsonLookup fields k' := by
  unfold jsonLookup setKey
  rw [List.find?_append]
  have h2 : List.find? (fun p => p.1 == k') [(k, v)] = none := by
    have : (k == k') = false := by
      simp only [beq_eq_false_iff_ne, ne_eq]
      exact fun hh => h hh.symm
    simp [List.find?, this]
  rw [h2, find?_key_filter_other fields k k' h]
  cases List.find? (fun p => p.1 == k') fields <;> rfl

theorem jsonGet_jsonSet_self (j : Json) (k : String) (v : Json) :
    jsonGet (jsonSet j k v) k = some v := by
  cases j with
  | obj fields => exact jsonLookup_setKey_self fields k v
  | null => simp [jsonSet, jsonGet, jsonLookup, List.find?]
  | bool b => simp [jsonSet, jsonGet, jsonLookup, List.find?]
  | num n => simp [jsonSet, jsonGet, jsonLookup, List.find?]
  | str s => simp [jsonSet, jsonGet, jsonLookup, List.find?]
  | arr elems => simp [jsonSet, jsonGet, jsonLookup, List.find?]

theorem jsonGet_jsonSet_jsonSet_ne (j : Json) (k k' : String) (v v' : Json)
    (h : k' ≠ k) :
    jsonGet (jsonSet (jsonSet j k' v') k v) k' = some v' := by
  cases j with
  | obj fields =>
      show jsonLookup (setKey (setKey fields k' v') k v) k' = some v'
      rw [jsonLookup_setKey_ne _ _ _ _ h, jsonLookup_setKey_self]
  | null =>
      show jsonLookup (setKey [(k', v')] k v) k' = some v'
      rw [jsonLookup_setKey_ne _ _ _ _ h]
      simp [jsonLookup, List.find?]
  | bool b =>
      show jsonLookup (setKey [(k', v')] k v) k' = some v'
      rw [jsonLookup_setKey_ne _ _ _ _ h]
      simp [jsonLookup, List.find?]
  | num n =>
      show jsonLookup (setKey [(k', v')] k v) k' = some v'
      rw [jsonLookup_setKey_ne _ _ _ _ h]
      simp [jsonLookup, List.find?]
  | str s =>
      show jsonLookup (setKey [(k', v')] k v) k' = some v'
      rw [jsonLookup_setKey_ne _ _ _ _ h]
      simp [jsonLookup, List.find?]
  | arr elems =>
      show jsonLookup (setKey [(k', v')] k v) k' = some v'
      rw [jsonLookup_setKey_ne _ _ _ _ h]
      simp [jsonLookup, List.find?]

theorem mapImportEntries_error_of_mem (fresh : Nat → String)
    (entries : List Json) :
    ∀ i : Nat, Json.null ∈ entries →
      mapImportEntries fresh i entries = .error .typeError := by
  induction entries with
  | nil =>
      intro i h
      cases h
  | cons c cs ih =>
      intro i h
      rcases List.mem_cons.mp h with hc | hc
      · subst hc
        rfl
      · cases hie : importEntry (fresh i) c with
        | error e =>
            cases e
            simp [mapImportEntries, hie]
        | ok c' =>
            simp [mapImportEntries, hie, ih (i + 1) hc]

theorem mapImportEntries_ok_of_not_mem (fresh : Nat → String)
    (entries : List Json) :
    ∀ i : Nat, Json.null ∉ entries →
      ∃ stamped, mapImportEntries fresh i entries = .ok stamped := by
  induction entries with
  | nil => exact fun i _ => ⟨[], rfl⟩
  | cons c cs ih =>
      intro i h
      have hcne : c ≠ Json.null := by
        intro he
        exact h (by rw [← he]; exact List.mem_cons_self c cs)
      have hcs : Json.null ∉ cs := fun hm => h (List.mem_cons_of_mem c hm)
      obtain ⟨stamped, hs⟩ := ih (i + 1) hcs
      have hie : ∃ c', importEntry (fresh i) c = .ok c' := by
        cases c with
        | null => exact absurd rfl hcne
        | bool b => exact ⟨_, rfl⟩
        | num n => exact ⟨_, rfl⟩
        | str s => exact ⟨_, rfl⟩
        | arr elems => exact ⟨_, rfl⟩
        | obj fields => exact ⟨_, rfl⟩
      obtain ⟨c', hc'⟩ := hie
      exact ⟨c' :: stamped, by simp [mapImportEntries, hc', hs]⟩

theorem isSubstr_suffix (s u : String) : IsSubstr s (u ++ s) :=
  ⟨u.data, [], by rw [String.data_append]; simp⟩

theorem isSubstr_append_right {s t : String} (u : String) (h : IsSubstr s t) :
    IsSubstr s (t ++ u) := by
  obtain ⟨a, b, hab⟩ := h
  refine ⟨a, b ++ u.data, ?_⟩
  rw [String.data_append, hab]
  simp [List.append_assoc]

theorem isSubstr_char_mem {s t : String} (h : IsSubstr s t) {c : Char}
    (hc : c ∈ s.data) : c ∈ t.data := by
  obtain ⟨a, b, hab⟩ := h
  rw [hab]
  simp [hc]

theorem sortInsert_perm (x : AnalysisResult) (l : List AnalysisResult) :
    (sortInsert x l).Perm (x :: l) := by
  induction l with
  | nil => exact List.Perm.refl _
  | cons y ys ih =>
      unfold sortInsert
      by_cases h : x.timestamp ≤ y.timestamp
      · simp [h]
      · simpa [h] using (ih.cons y).trans (List.Perm.swap x y ys)

theorem consistencySort_perm (l : List AnalysisResult) :
    (consistencySort l).Perm l := by
  induction l with
  | nil => exact List.Perm.refl _
  | cons x xs ih =>
      exact (sortInsert_perm x (consistencySort xs)).trans (ih.cons x)

theorem sortInsert_pairwise (x : AnalysisResult) (l : List AnalysisResult)
    (h : l.Pairwise (fun a b => a.timestamp ≤ b.timestamp)) :
    (sortInsert x l).Pairwise (fun a b => a.timestamp ≤ b.timestamp) := by
  induction l with
  | nil => simp [sortInsert]
  | cons y ys ih =>
      unfold sortInsert
      by_cases hle : x.timestamp ≤ y.timestamp
      · simp only [if_pos hle]
        refine List.Pairwise.cons ?_ h
        intro z hz
        rcases List.mem_cons.mp hz with hz | hz
        · exact hz ▸ hle
        · exact le_trans hle ((List.pairwise_cons.mp h).1 z hz)
      · simp only [if_neg hle]
        have hyx : y.timestamp ≤ x.timestamp := le_of_not_le hle
        obtain ⟨hy, hys⟩ := List.pairwise_cons.mp h
        refine List.Pairwise.cons ?_ (ih hys)
        intro z hz
        have hz'' := (sortInsert_perm x ys).mem_iff.mp hz
        rcases List.mem_cons.mp hz'' with hz' | hz'
        · exact hz' ▸ hyx
        · exact hy z hz'

theorem consistencySort_pairwise (l : List AnalysisResult) :
    (consistencySort l).Pairwise (fun a b => a.timestamp ≤ b.timestamp) := by
  induction l with
  | nil => simp [consistencySort]
  | cons x xs ih => exact sortInsert_pairwise x (consistencySort xs) ih

theorem sortInsert_filter_eq (x : AnalysisResult) (l : List AnalysisResult)
    (n : Int) :
    (sortInsert x l).filter (fun r => r.timestamp == n) =
      (x :: l).filter (fun r => r.timestamp == n) := by
  induction l with
  | nil => rfl
  | cons y ys ih =>
      unfold sortInsert
      by_cases hle : x.timestamp ≤ y.timestamp
      · simp [hle]
      · have hyx : y.timestamp < x.timestamp := lt_of_not_le hle
        simp only [if_neg hle]
        by_cases hx : x.timestamp = n
        · have hy : (y.timestamp == n) = false := by
            simp only [beq_eq_false_iff_ne, ne_eq]
            intro hyn
            exact absurd (hyn.trans hx.symm) (ne_of_lt hyx)
          simp [List.filter_cons, hx, hy, ih]
        · have hx' : (x.timestamp == n) = false := by
            simpa using hx
          simp [List.filter_cons, hx', ih]

theorem consistencySort_filter_eq (l : List AnalysisResult) (n : Int) :
    (consistencySort l).filter (fun r => r.timestamp == n) =
      l.filter (fun r => r.timestamp == n) := by
  induction l with
  | nil => rfl
  | cons x xs ih =>
      calc (consistencySort (x :: xs)).filter (fun r => r.timestamp == n)
          = (x :: consistencySort xs).filter (fun r => r.timestamp == n) :=
            sortInsert_filter_eq x (consistencySort xs) n
        _ = (x :: xs).filter (fun r => r.timestamp == n) := by
            simp only [List.filter_cons, ih]

/-! ## Claim C1 — consistency-check preconditions -/

/-- C1 counterexample: `runConsistencyCheck` does not fail before the
external call on a singleton history, nor on a two-entry history whose
tickers differ — in both cases it issues the external inference request,
contradicting the claimed precondition/selection error. -/
theorem C1_counterexample :
    (∃ req, runConsistencyCheckRequest serializeFix [mkRes "BBCA" 100] =
        .ok req) ∧
    (∃ req, runConsistencyCheckRequest serializeFix
        [mkRes "AAAA" 100, mkRes "BBBB" 200] = .ok req) ∧
    (mkRes "AAAA" 100).ticker ≠ (mkRes "BBBB" 200).ticker := by
  refine ⟨⟨_, rfl⟩, ⟨_, rfl⟩, by decide⟩

/-- C1 (amended): `runConsistencyCheck` itself validates nothing — it
issues the external inference call for every nonempty history, regardless
of history size or ticker mix; only the empty history fails before the
call, with a TypeError from `sorted[0].ticker`, not a precondition error.
The size-two and single-ticker restrictions live solely in the UI
selection layer. -/
theorem C1_amended : ∀ (serialize : List AnalysisResult → String)
    (history : List AnalysisResult),
    ((∃ req, runConsistencyCheckRequest serialize history = .ok req) ↔
      history ≠ []) ∧
    runConsistencyCheckRequest serialize [] = .error .typeError := by
  intro serialize history
  refine ⟨⟨?_, ?_⟩, rfl⟩
  · rintro ⟨req, hreq⟩ he
    subst he
    simp [runConsistencyCheckRequest, consistencySort] at hreq
  · intro hne
    cases hcs : consistencySort history with
    | nil =>
        exfalso
        apply hne
        have hlen := (consistencySort_perm history).length_eq
        rw [hcs] at hlen
        exact List.length_eq_zero.mp hlen.symm
    | cons f r =>
        refine ⟨{ model := "gemini-3-flash-preview",
                  prompt := "Analisa tren konsistensi untuk " ++ f.ticker ++
                    ". Data: " ++ serialize (f :: r) ++
                    ". Gunakan bahasa profesional dan berikan outlook trend jangka panjang.",
                  temperature := 0, seed := 42069 }, ?_⟩
        simp [runConsistencyCheckRequest, hcs]

/-! ## Claim C2 — archive import atomicity -/

/-- C2 counterexample: importing an array snapshot holding one result-shaped
entry and one malformed (non-record) entry does not raise the import error
and does not leave the archive unchanged — both entries are merged and the
success alert is shown. -/
theorem C2_counterexample :
    jsonGet c2Bad "ticker" = none ∧
    (handleImportVault freshFix [] (some (.arr [c2Good, c2Bad]))).2 =
      .alertImported 2 ∧
    (handleImportVault freshFix [] (some (.arr [c2Good, c2Bad]))).1.length =
      2 :=
  ⟨rfl, rfl, rfl⟩

/-- C2 (amended): the user-visible "Invalid JSON file" error fires exactly
when the snapshot text fails to parse as JSON or the parsed array contains
a null entry (whose `c.id` access throws a TypeError reaching the same
catch), and in every such case the archive is unchanged; a parsed
snapshot that is not an array is silently ignored (no error, archive
unchanged); and a parsed array free of null entries is merged wholesale —
every entry, malformed or not, is appended after the existing entries with
only the id-fallback mapping applied — so a snapshot with non-null
malformed entries is merged rather than rejected. -/
theorem C2_amended : ∀ (fresh : Nat → String) (vaultCases : List Json)
    (parsed : Option Json),
    ((handleImportVault fresh vaultCases parsed).2 = .alertInvalidJson ↔
      (parsed = none ∨
        ∃ entries, parsed = some (.arr entries) ∧ Json.null ∈ entries)) ∧
    ((handleImportVault fresh vaultCases parsed).2 = .alertInvalidJson →
      (handleImportVault fresh vaultCases parsed).1 = vaultCases) ∧
    (∀ j, parsed = some j → (∀ entries, j ≠ .arr entries) →
      handleImportVault fresh vaultCases parsed =
        (vaultCases, .silentNoop)) ∧
    (∀ entries, parsed = some (.arr entries) → Json.null ∉ entries →
      ∃ stamped, mapImportEntries fresh 0 entries = .ok stamped ∧
        handleImportVault fresh vaultCases parsed =
          (vaultCases ++ stamped, .alertImported entries.length)) := by
  intro fresh vaultCases parsed
  match parsed with
  | none =>
      refine ⟨⟨fun _ => Or.inl rfl, fun _ => rfl⟩, fun _ => rfl, ?_, ?_⟩
      · intro j hj
        exact absurd hj (by simp)
      · intro entries hj
        exact absurd hj (by simp)
  | some (Json.arr entries) =>
      by_cases hmem : Json.null ∈ entries
      · have he := mapImportEntries_error_of_mem fresh entries 0 hmem
        have hout : (handleImportVault fresh vaultCases
            (some (Json.arr entries))).2 = .alertInvalidJson := by
          simp [handleImportVault, he]
        refine ⟨⟨fun _ => Or.inr ⟨entries, rfl, hmem⟩, fun _ => hout⟩,
          ?_, ?_, ?_⟩
        · intro _
          simp [handleImportVault, he]
        · intro j hj hne
          have hj' : j = Json.arr entries := (Option.some_inj.mp hj).symm
          exact absurd hj' (fun hh => hne entries hh)
        · intro entries' hj' hnull
          have harr : Json.arr entries = Json.arr entries' :=
            Option.some_inj.mp hj'
          injection harr with hlist
          rw [← hlist] at hnull
          exact absurd hmem hnull
      · obtain ⟨stamped, hs⟩ :=
          mapImportEntries_ok_of_not_mem fresh entries 0 hmem
        have hout : (handleImportVault fresh vaultCases
            (some (Json.arr entries))).2 = .alertImported entries.length := by
          simp [handleImportVault, hs]
        refine ⟨⟨?_, ?_⟩, ?_, ?_, ?_⟩
        · intro h
          rw [hout] at h
          simp at h
        · rintro (h | ⟨entries', he', hmem'⟩)
          · cases h
          · have harr : Json.arr entries = Json.arr entries' :=
              Option.some_inj.mp he'
            injection harr with hlist
            rw [← hlist] at hmem'
            exact absurd hmem' hmem
        · intro h
          rw [hout] at h
          simp at h
        · intro j hj hne
          have hj' : j = Json.arr entries := (Option.some_inj.mp hj).symm
          exact absurd hj' (fun hh => hne entries hh)
        · intro entries' hj' hnull
          have harr : Json.arr entries = Json.arr entries' :=
            Option.some_inj.mp hj'
          injection harr with hlist
          subst hlist
          exact ⟨stamped, hs, by simp [handleImportVault, hs]⟩
  | some Json.null =>
      refine ⟨⟨?_, ?_⟩, ?_, fun j' hj' _ => rfl, ?_⟩
      · intro h
        simp [handleImportVault] at h
      · rintro (h | ⟨entries', he', _⟩)
        · cases h
        · exact Json.noConfusion (Option.some_inj.mp he')
      · intro h
        simp [handleImportVault] at h
      · intro entries' he' _
        exact absurd (Option.some_inj.mp he') (by simp)
  | some (Json.bool b) =>
      refine ⟨⟨?_, ?_⟩, ?_, fun j' hj' _ => rfl, ?_⟩
      · intro h
        simp [handleImportVault] at h
      · rintro (h | ⟨entries', he', _⟩)
        · cases h
        · exact Json.noConfusion (Option.some_inj.mp he')
      · intro h
        simp [handleImportVault] at h
      · intro entries' he' _
        exact absurd (Option.some_inj.mp he') (by simp)
  | some (Json.num n) =>
      refine ⟨⟨?_, ?_⟩, ?_, fun j' hj' _ => rfl, ?_⟩
      · intro h
        simp [handleImportVault] at h
      · rintro (h | ⟨entries', he', _⟩)
        · cases h
        · exact Json.noConfusion (Option.some_inj.mp he')
      · intro h
        simp [handleImportVault] at h
      · intro entries' he' _
        exact absurd (Option.some_inj.mp he') (by simp)
  | some (Json.str str) =>
      refine ⟨⟨?_, ?_⟩, ?_, fun j' hj' _ => rfl, ?_⟩
      · intro h
        simp [handleImportVault] at h
      · rintro (h | ⟨entries', he', _⟩)
        · cases h
        · exact Json.noConfusion (Option.some_inj.mp he')
      · intro h
        simp [handleImportVault] at h
      · intro entries' he' _
        exact absurd (Option.some_inj.mp he') (by simp)
  | some (Json.obj fields) =>
      refine ⟨⟨?_, ?_⟩, ?_, fun j' hj' _ => rfl, ?_⟩
      · intro h
        simp [handleImportVault] at h
      · rintro (h | ⟨entries', he', _⟩)
        · cases h
        · exact Json.noConfusion (Option.some_inj.mp he')
      · intro h
        simp [handleImportVault] at h
      · intro entries' he' _
        exact absurd (Option.some_inj.mp he') (by simp)

/-- C2 amended witness at concrete inputs: an unparseable file keeps the
archive; a parsed non-array (a bare object) changes nothing and shows
nothing; a parsed null-free malformed array is merged wholesale; and a
parsed array containing null hits the invalid-file alert with the archive
unchanged. -/
theorem C2_amended_witness :
    (handleImportVault freshFix [c6Existing] none).1 = [c6Existing] ∧
    handleImportVault freshFix [c6Existing] (some (.obj [])) =
      ([c6Existing], .silentNoop) ∧
    (∃ stamped, mapImportEntries freshFix 0 [c2Bad] = .ok stamped ∧
      handleImportVault freshFix [c6Existing] (some (.arr [c2Bad])) =
        ([c6Existing] ++ stamped, .alertImported 1)) ∧
    (handleImportVault freshFix [c6Existing]
        (some (.arr [Json.null]))).2 = .alertInvalidJson ∧
    (handleImportVault freshFix [c6Existing]
        (some (.arr [Json.null]))).1 = [c6Existing] := by
  have h1 := C2_amended freshFix [c6Existing] none
  have h2 := C2_amended freshFix [c6Existing] (some (.obj []))
  have h3 := C2_amended freshFix [c6Existing] (some (.arr [c2Bad]))
  have h4 := C2_amended freshFix [c6Existing] (some (.arr [Json.null]))
  have herr : (handleImportVault freshFix [c6Existing]
      (some (.arr [Json.null]))).2 = .alertInvalidJson :=
    h4.1.mpr (Or.inr ⟨[Json.null], rfl, List.mem_singleton.mpr rfl⟩)
  refine ⟨h1.2.1 (h1.1.mpr (Or.inl rfl)),
    h2.2.2.1 (.obj []) rfl (fun entries hh => by cases hh),
    h3.2.2.2 [c2Bad] rfl (by simp [c2Bad]),
    herr, h4.2.1 herr⟩

/-! ## Claim C3 — every input field interpolated verbatim -/

set_option maxRecDepth 8000 in
/-- C3 counterexample: a validated (submission-eligible) input whose
`npm` value does not occur anywhere in the composed prompt — the prompt
template has no placeholder for `npm` (nor `growth` nor `duration`), so the
field is dropped. -/
theorem C3_counterexample :
    submissionEligible c3Input = true ∧
    c3Input.fundamentals.npm = "†" ∧
    ¬ IsSubstr c3Input.fundamentals.npm (analysisPrompt c3Input) := by
  refine ⟨by decide, rfl, fun h => ?_⟩
  have hc : ('†' : Char) ∈ (analysisPrompt c3Input).data :=
    isSubstr_char_mem h (by decide)
  exact absurd hc (by decide)

/-- C3 (amended): the composed prompt contains, verbatim as substrings,
the ticker, price, capital, the capital-tier and risk-profile names, and of
the fundamentals roe, der, pbv, per, cfo and fcf, and of the bandarmology
block the broker-summary score, top brokers, average price, both order-book
sides and both trade-book sides, and the raw intelligence text unmodified —
but not `npm`, `growth` or `duration`, which have no placeholder in the
template (the counterexample exhibits the drop). -/
theorem C3_amended : ∀ input : StockAnalysisInput,
    IsSubstr input.ticker (analysisPrompt input) ∧
    IsSubstr input.price (analysisPrompt input) ∧
    IsSubstr (riskProfileName input.riskProfile) (analysisPrompt input) ∧
    IsSubstr input.capital (analysisPrompt input) ∧
    IsSubstr (capitalTierName input.capitalTier) (analysisPrompt input) ∧
    IsSubstr (riskInstruction input.riskProfile) (analysisPrompt input) ∧
    IsSubstr input.fundamentals.roe (analysisPrompt input) ∧
    IsSubstr input.fundamentals.der (analysisPrompt input) ∧
    IsSubstr input.fundamentals.pbv (analysisPrompt input) ∧
    IsSubstr input.fundamentals.per (analysisPrompt input) ∧
    IsSubstr input.fundamentals.cfo (analysisPrompt input) ∧
    IsSubstr input.fundamentals.fcf (analysisPrompt input) ∧
    IsSubstr (toString input.bandarmology.brokerSummaryVal)
      (analysisPrompt input) ∧
    IsSubstr input.bandarmology.topBrokers (analysisPrompt input) ∧
    IsSubstr input.bandarmology.bandarAvgPrice (analysisPrompt input) ∧
    IsSubstr input.bandarmology.orderBookBid (analysisPrompt input) ∧
    IsSubstr input.bandarmology.orderBookAsk (analysisPrompt input) ∧
    IsSubstr input.bandarmology.tradeBookAsk (analysisPrompt input) ∧
    IsSubstr input.bandarmology.tradeBookBid (analysisPrompt input) ∧
    IsSubstr input.rawIntelligenceData (analysisPrompt input) := by
  intro input
  unfold analysisPrompt
  refine ⟨?_, ?_, ?_, ?_, ?_, ?_, ?_, ?_, ?_, ?_, ?_, ?_, ?_, ?_, ?_, ?_,
    ?_, ?_, ?_, ?_⟩
  · exact isSubstr_append_right _ (isSubstr_append_right _ (isSubstr_append_right _ (isSubstr_append_right _ (isSubstr_append_right _ (isSubstr_append_right _ (isSubstr_append_right _ (isSubstr_append_right _ (isSubstr_append_right _ (isSubstr_append_right _ (isSubstr_append_right _ (isSubstr_append_right _ (isSubstr_append_right _ (isSubstr_append_right _ (isSubstr_append_right _ (isSubstr_append_right _ (isSubstr_append_right _ (isSubstr_append_right _ (isSubstr_append_right _ (isSubstr_append_right _ (isSubstr_append_right _ (isSubstr_append_right _ (isSubstr_append_right _ (isSubstr_append_right _ (isSubstr_append_right _ (isSubstr_append_right _ (isSubstr_append_right _ (isSubstr_append_right _ (isSubstr_append_right _ (isSubstr_append_right _ (isSubstr_append_right _ (isSubstr_append_right _ (isSubstr_append_right _ (isSubstr_append_right _ (isSubstr_append_right _ (isSubstr_append_right _ (isSubstr_append_right _ (isSubstr_append_right _ (isSubstr_append_right _ (isSubstr_suffix _ _)))))))))))))))))))))))))))))))))))))))
  · exact isSubstr_append_right _ (isSubstr_append_right _ (isSubstr_append_right _ (isSubstr_append_right _ (isSubstr_append_right _ (isSubstr_append_right _ (isSubstr_append_right _ (isSubstr_append_right _ (isSubstr_append_right _ (isSubstr_append_right _ (isSubstr_append_right _ (isSubstr_append_right _ (isSubstr_append_right _ (isSubstr_append_right _ (isSubstr_append_right _ (isSubstr_append_right _ (isSubstr_append_right _ (isSubstr_append_right _ (isSubstr_append_right _ (isSubstr_append_right _ (isSubstr_append_right _ (isSubstr_append_right _ (isSubstr_append_right _ (isSubstr_append_right _ (isSubstr_append_right _ (isSubstr_append_right _ (isSubstr_append_right _ (isSubstr_append_right _ (isSubstr_append_right _ (isSubstr_append_right _ (isSubstr_append_right _ (isSubstr_append_right _ (isSubstr_append_right _ (isSubstr_append_right _ (isSubstr_append_right _ (isSubstr_append_right _ (isSubstr_append_right _ (isSubstr_suffix _ _)))))))))))))))))))))))))))))))))))))
  · exact isSubstr_append_right _ (isSubstr_append_right _ (isSubstr_append_right _ (isSubstr_append_right _ (isSubstr_append_right _ (isSubstr_append_right _ (isSubstr_append_right _ (isSubstr_append_right _ (isSubstr_append_right _ (isSubstr_append_right _ (isSubstr_append_right _ (isSubstr_append_right _ (isSubstr_append_right _ (isSubstr_append_right _ (isSubstr_append_right _ (isSubstr_append_right _ (isSubstr_append_right _ (isSubstr_append_right _ (isSubstr_append_right _ (isSubstr_append_right _ (isSubstr_append_right _ (isSubstr_append_right _ (isSubstr_append_right _ (isSubstr_append_right _ (isSubstr_append_right _ (isSubstr_append_right _ (isSubstr_append_right _ (isSubstr_append_right _ (isSubstr_append_right _ (isSubstr_append_right _ (isSubstr_append_right _ (isSubstr_append_right _ (isSubstr_append_right _ (isSubstr_append_right _ (isSubstr_append_right _ (isSubstr_suffix _ _)))))))))))))))))))))))))))))))))))
  · exact isSubstr_append_right _ (isSubstr_append_right _ (isSubstr_append_right _ (isSubstr_append_right _ (isSubstr_append_right _ (isSubstr_append_right _ (isSubstr_append_right _ (isSubstr_append_right _ (isSubstr_append_right _ (isSubstr_append_right _ (isSubstr_append_right _ (isSubstr_append_right _ (isSubstr_append_right _ (isSubstr_append_right _ (isSubstr_append_right _ (isSubstr_append_right _ (isSubstr_append_right _ (isSubstr_append_right _ (isSubstr_append_right _ (isSubstr_append_right _ (isSubstr_append_right _ (isSubstr_append_right _ (isSubstr_append_right _ (isSubstr_append_right _ (isSubstr_append_right _ (isSubstr_append_right _ (isSubstr_append_right _ (isSubstr_append_right _ (isSubstr_append_right _ (isSubstr_append_right _ (isSubstr_append_right _ (isSubstr_append_right _ (isSubstr_append_right _ (isSubstr_suffix _ _)))))))))))))))))))))))))))))))))
  · exact isSubstr_append_right _ (isSubstr_append_right _ (isSubstr_append_right _ (isSubstr_append_right _ (isSubstr_append_right _ (isSubstr_append_right _ (isSubstr_append_right _ (isSubstr_append_right _ (isSubstr_append_right _ (isSubstr_append_right _ (isSubstr_append_right _ (isSubstr_append_right _ (isSubstr_append_right _ (isSubstr_append_right _ (isSubstr_append_right _ (isSubstr_append_right _ (isSubstr_append_right _ (isSubstr_append_right _ (isSubstr_append_right _ (isSubstr_append_right _ (isSubstr_append_right _ (isSubstr_append_right _ (isSubstr_append_right _ (isSubstr_append_right _ (isSubstr_append_right _ (isSubstr_append_right _ (isSubstr_append_right _ (isSubstr_append_right _ (isSubstr_append_right _ (isSubstr_append_right _ (isSubstr_append_right _ (isSubstr_suffix _ _)))))))))))))))))))))))))))))))
  · exact isSubstr_append_right _ (isSubstr_append_right _ (isSubstr_append_right _ (isSubstr_append_right _ (isSubstr_append_right _ (isSubstr_append_right _ (isSubstr_append_right _ (isSubstr_append_right _ (isSubstr_append_right _ (isSubstr_append_right _ (isSubstr_append_right _ (isSubstr_append_right _ (isSubstr_append_right _ (isSubstr_append_right _ (isSubstr_append_right _ (isSubstr_append_right _ (isSubstr_append_right _ (isSubstr_append_right _ (isSubstr_append_right _ (isSubstr_append_right _ (isSubstr_append_right _ (isSubstr_append_right _ (isSubstr_append_right _ (isSubstr_append_right _ (isSubstr_append_right _ (isSubstr_append_right _ (isSubstr_append_right _ (isSubstr_append_right _ (isSubstr_append_right _ (isSubstr_suffix _ _)))))))))))))))))))))))))))))
  · exact isSubstr_append_right _ (isSubstr_append_right _ (isSubstr_append_right _ (isSubstr_append_right _ (isSubstr_append_right _ (isSubstr_append_right _ (isSubstr_append_right _ (isSubstr_append_right _ (isSubstr_append_right _ (isSubstr_append_right _ (isSubstr_append_right _ (isSubstr_append_right _ (isSubstr_append_right _ (isSubstr_append_right _ (isSubstr_append_right _ (isSubstr_append_right _ (isSubstr_append_right _ (isSubstr_append_right _ (isSubstr_append_right _ (isSubstr_append_right _ (isSubstr_append_right _ (isSubstr_append_right _ (isSubstr_append_right _ (isSubstr_append_right _ (isSubstr_append_right _ (isSubstr_append_right _ (isSubstr_append_right _ (isSubstr_suffix _ _)))))))))))))))))))))))))))
  · exact isSubstr_append_right _ (isSubstr_append_right _ (isSubstr_append_right _ (isSubstr_append_right _ (isSubstr_append_right _ (isSubstr_append_right _ (isSubstr_append_right _ (isSubstr_append_right _ (isSubstr_append_right _ (isSubstr_append_right _ (isSubstr_append_right _ (isSubstr_append_right _ (isSubstr_append_right _ (isSubstr_append_right _ (isSubstr_append_right _ (isSubstr_append_right _ (isSubstr_append_right _ (isSubstr_append_right _ (isSubstr_append_right _ (isSubstr_append_right _ (isSubstr_append_right _ (isSubstr_append_right _ (isSubstr_append_right _ (isSubstr_append_right _ (isSubstr_append_right _ (isSubstr_suffix _ _)))))))))))))))))))))))))
  · exact isSubstr_append_right _ (isSubstr_append_right _ (isSubstr_append_right _ (isSubstr_append_right _ (isSubstr_append_right _ (isSubstr_append_right _ (isSubstr_append_right _ (isSubstr_append_right _ (isSubstr_append_right _ (isSubstr_append_right _ (isSubstr_append_right _ (isSubstr_append_right _ (isSubstr_append_right _ (isSubstr_append_right _ (isSubstr_append_right _ (isSubstr_append_right _ (isSubstr_append_right _ (isSubstr_append_right _ (isSubstr_append_right _ (isSubstr_append_right _ (isSubstr_append_right _ (isSubstr_append_right _ (isSubstr_append_right _ (isSubstr_suffix _ _)))))))))))))))))))))))
  · exact isSubstr_append_right _ (isSubstr_append_right _ (isSubstr_append_right _ (isSubstr_append_right _ (isSubstr_append_right _ (isSubstr_append_right _ (isSubstr_append_right _ (isSubstr_append_right _ (isSubstr_append_right _ (isSubstr_append_right _ (isSubstr_append_right _ (isSubstr_append_right _ (isSubstr_append_right _ (isSubstr_append_right _ (isSubstr_append_right _ (isSubstr_append_right _ (isSubstr_append_right _ (isSubstr_append_right _ (isSubstr_append_right _ (isSubstr_append_right _ (isSubstr_append_right _ (isSubstr_suffix _ _)))))))))))))))))))))
  · exact isSubstr_append_right _ (isSubstr_append_right _ (isSubstr_append_right _ (isSubstr_append_right _ (isSubstr_append_right _ (isSubstr_append_right _ (isSubstr_append_right _ (isSubstr_append_right _ (isSubstr_append_right _ (isSubstr_append_right _ (isSubstr_append_right _ (isSubstr_append_right _ (isSubstr_append_right _ (isSubstr_append_right _ (isSubstr_append_right _ (isSubstr_append_right _ (isSubstr_append_right _ (isSubstr_append_right _ (isSubstr_append_right _ (isSubstr_suffix _ _)))))))))))))))))))
  · exact isSubstr_append_right _ (isSubstr_append_right _ (isSubstr_append_right _ (isSubstr_append_right _ (isSubstr_append_right _ (isSubstr_append_right _ (isSubstr_append_right _ (isSubstr_append_right _ (isSubstr_append_right _ (isSubstr_append_right _ (isSubstr_append_right _ (isSubstr_append_right _ (isSubstr_append_right _ (isSubstr_append_right _ (isSubstr_append_right _ (isSubstr_append_right _ (isSubstr_append_right _ (isSubstr_suffix _ _)))))))))))))))))
  · exact isSubstr_append_right _ (isSubstr_append_right _ (isSubstr_append_right _ (isSubstr_append_right _ (isSubstr_append_right _ (isSubstr_append_right _ (isSubstr_append_right _ (isSubstr_append_right _ (isSubstr_append_right _ (isSubstr_append_right _ (isSubstr_append_right _ (isSubstr_append_right _ (isSubstr_append_right _ (isSubstr_append_right _ (isSubstr_append_right _ (isSubstr_suffix _ _)))))))))))))))
  · exact isSubstr_append_right _ (isSubstr_append_right _ (isSubstr_append_right _ (isSubstr_append_right _ (isSubstr_append_right _ (isSubstr_append_right _ (isSubstr_append_right _ (isSubstr_append_right _ (isSubstr_append_right _ (isSubstr_append_right _ (isSubstr_append_right _ (isSubstr_append_right _ (isSubstr_append_right _ (isSubstr_suffix _ _)))))))))))))
  · exact isSubstr_append_right _ (isSubstr_append_right _ (isSubstr_append_right _ (isSubstr_append_right _ (isSubstr_append_right _ (isSubstr_append_right _ (isSubstr_append_right _ (isSubstr_append_right _ (isSubstr_append_right _ (isSubstr_append_right _ (isSubstr_append_right _ (isSubstr_suffix _ _)))))))))))
  · exact isSubstr_append_right _ (isSubstr_append_right _ (isSubstr_append_right _ (isSubstr_append_right _ (isSubstr_append_right _ (isSubstr_append_right _ (isSubstr_append_right _ (isSubstr_append_right _ (isSubstr_append_right _ (isSubstr_suffix _ _)))))))))
  · exact isSubstr_append_right _ (isSubstr_append_right _ (isSubstr_append_right _ (isSubstr_append_right _ (isSubstr_append_right _ (isSubstr_append_right _ (isSubstr_append_right _ (isSubstr_suffix _ _)))))))
  · exact isSubstr_append_right _ (isSubstr_append_right _ (isSubstr_append_right _ (isSubstr_append_right _ (isSubstr_append_right _ (isSubstr_suffix _ _)))))
  · exact isSubstr_append_right _ (isSubstr_append_right _ (isSubstr_append_right _ (isSubstr_suffix _ _)))
  · exact isSubstr_append_right _ (isSubstr_suffix _ _)

/-! ## Claim C4 — no local schema validation of the response -/

/-- C4 counterexample: a parsed payload missing every required top-level key
of the response schema is not rejected — `analyzeStock` stamps it and
returns it successfully instead of failing. -/
theorem C4_counterexample :
    missingRequiredKeys (Json.obj []) = analysisRequiredKeys ∧
    processAnalyzeResponse (some (Json.obj [])) "uuid-1" 1700000000000 =
      .ok (stampResult (Json.obj []) "uuid-1" 1700000000000) :=
  ⟨rfl, rfl⟩

/-- C4 (amended): the required keys and enumerated values are declared in
the `responseSchema` sent with the request, but the returned text is only
`JSON.parse`d and cast — `analyzeStock`'s local processing fails exactly
when the response text is not valid JSON, and every successfully parsed
payload, schema-conforming or not, is stamped and returned unvalidated. -/
theorem C4_amended : ∀ (parsed : Option Json) (freshId : String) (now : Int),
    ((∃ r, processAnalyzeResponse parsed freshId now = .ok r) ↔
      parsed ≠ none) ∧
    (∀ data, processAnalyzeResponse (some data) freshId now =
      .ok (stampResult data freshId now)) := by
  intro parsed freshId now
  refine ⟨⟨?_, ?_⟩, fun data => rfl⟩
  · rintro ⟨r, hr⟩ he
    subst he
    simp [processAnalyzeResponse] at hr
  · intro h
    match parsed with
    | none => exact absurd rfl h
    | some d => exact ⟨_, rfl⟩

/-! ## Claim C5 — locally authoritative id/timestamp, sources default -/

/-- C5: on every successful `analyzeStock` call the returned object carries
the locally generated `id` and capture `timestamp`, overwriting any `id` or
`timestamp` value present in the parsed response payload (the stamping is
applied to arbitrary payload fields, including payloads that already carry
those keys), and `sources` is the empty sequence — in particular it is
initialized to the empty sequence whenever absent from the response. -/
theorem C5_stamping : ∀ (fields : List (String × Json)) (freshId : String)
    (now : Int),
    processAnalyzeResponse (some (.obj fields)) freshId now =
      .ok (.obj (stampFields fields freshId now)) ∧
    jsonLookup (stampFields fields freshId now) "id" =
      some (.str freshId) ∧
    jsonLookup (stampFields fields freshId now) "timestamp" =
      some (.num now) ∧
    jsonLookup (stampFields fields freshId now) "sources" =
      some (.arr []) := by
  intro fields freshId now
  refine ⟨rfl, ?_, ?_, ?_⟩
  · unfold stampFields
    rw [jsonLookup_setKey_ne _ _ _ _ (by decide),
      jsonLookup_setKey_ne _ _ _ _ (by decide), jsonLookup_setKey_self]
  · unfold stampFields
    rw [jsonLookup_setKey_ne _ _ _ _ (by decide), jsonLookup_setKey_self]
  · unfold stampFields
    rw [jsonLookup_setKey_self]

/-! ## Claim C6 — identity-key uniqueness after add/import -/

/-- C6 counterexample: importing a snapshot entry whose id equals an
existing archive id keeps the duplicate id (only a falsy or absent id is
re-keyed), so after the import two archive entries share the identity key
"A" — import does not re-key duplicates and archive-wide key uniqueness is
violated. -/
theorem C6_counterexample :
    ((handleImportVault freshFix [c6Existing] (some (.arr [c6Dup]))).1.map
        entryKey) = [Json.str "A", Json.str "A"] ∧
    ¬ ((handleImportVault freshFix [c6Existing]
        (some (.arr [c6Dup]))).1.map entryKey).Nodup := by
  have h : ((handleImportVault freshFix [c6Existing]
      (some (.arr [c6Dup]))).1.map entryKey) =
        [Json.str "A", Json.str "A"] := rfl
  refine ⟨h, ?_⟩
  rw [h]
  intro hnd
  exact (List.nodup_cons.mp hnd).1 (List.mem_singleton.mpr rfl)

/-- C6 (amended): `add` always re-keys — the saved entry carries the fresh
id draw and is prepended — while `import` preserves every truthy incoming
id verbatim, re-keys only non-null entries whose id is absent or falsy,
and throws a TypeError on a null entry (aborting the import).
Consequently import does not re-key entries whose ids duplicate existing
archive ids, and key uniqueness after import is not guaranteed (the
counterexample exhibits the violation). -/
theorem C6_amended : ∀ (vaultCases : List Json) (result : Json)
    (freshId : String) (now : Int) (c : Json) (importFreshId : String),
    saveToVault freshId now vaultCases result =
      saveStamp result freshId now :: vaultCases ∧
    jsonGet (saveStamp result freshId now) "id" = some (.str freshId) ∧
    (jsTruthy ((jsonGet c "id").getD .null) = true →
      ∃ c', importEntry importFreshId c = .ok c' ∧
        jsonGet c' "id" = jsonGet c "id") ∧
    (c ≠ Json.null → jsTruthy ((jsonGet c "id").getD .null) = false →
      ∃ c', importEntry importFreshId c = .ok c' ∧
        jsonGet c' "id" = some (.str importFreshId)) ∧
    importEntry importFreshId Json.null = .error .typeError := by
  intro vaultCases result freshId now c importFreshId
  refine ⟨rfl, ?_, ?_, ?_, rfl⟩
  · exact jsonGet_jsonSet_jsonSet_ne result "timestamp" "id" (.num now)
      (.str freshId) (by decide)
  · intro ht
    cases hg : jsonGet c "id" with
    | none =>
        rw [hg] at ht
        simp [jsTruthy] at ht
    | some v =>
        rw [hg] at ht
        simp only [Option.getD_some] at ht
        cases c with
        | obj fields =>
            refine ⟨jsonSet (.obj fields) "id" v, ?_, ?_⟩
            · simp [importEntry, hg, ht]
            · exact jsonGet_jsonSet_self (.obj fields) "id" v
        | null => simp [jsonGet] at hg
        | bool b => simp [jsonGet] at hg
        | num n => simp [jsonGet] at hg
        | str str => simp [jsonGet] at hg
        | arr elems => simp [jsonGet] at hg
  · intro hcne hf
    have he : importEntry importFreshId c =
        .ok (jsonSet c "id" (.str importFreshId)) := by
      cases c with
      | null => exact absurd rfl hcne
      | obj fields => simp [importEntry, hf]
      | bool b => simp [importEntry, hf]
      | num n => simp [importEntry, hf]
      | str str => simp [importEntry, hf]
      | arr elems => simp [importEntry, hf]
    exact ⟨jsonSet c "id" (.str importFreshId), he,
      jsonGet_jsonSet_self c "id" (.str importFreshId)⟩

/-- C6 amended witness at concrete entries: the truthy incoming id "A" is
imported without a throw and kept verbatim, and an id-less non-null entry
is imported with the fresh draw as its id. -/
theorem C6_amended_witness :
    jsTruthy ((jsonGet c6Dup "id").getD .null) = true ∧
    (∃ c', importEntry "FRESH-0" c6Dup = .ok c' ∧
      jsonGet c' "id" = jsonGet c6Dup "id") ∧
    c10Legacy ≠ Json.null ∧
    jsTruthy ((jsonGet c10Legacy "id").getD .null) = false ∧
    (∃ c', importEntry "FRESH-0" c10Legacy = .ok c' ∧
      jsonGet c' "id" = some (.str "FRESH-0")) := by
  have h := C6_amended [] Json.null "F" 0 c6Dup "FRESH-0"
  have h2 := C6_amended [] Json.null "F" 0 c10Legacy "FRESH-0"
  exact ⟨rfl, h.2.2.1 rfl, by simp [c10Legacy], rfl,
    h2.2.2.2.1 (by simp [c10Legacy]) rfl⟩

/-! ## Claim C7 — capital-fit advisory rules -/

/-- C7: `validateCapitalFit` realizes the spec's advisory table — for every
capital string that parses to a numeric amount, the computed advisory
equals the spec's first-match rule outcome on (amount, tier): critical for
MICRO above 150,000,000, warning for RETAIL above 600,000,000, invalid for
INSTITUTIONAL below 1,000,000,000, and none otherwise; the empty capital
yields no advisory. Being a plain function of the capital string and the
tier, the result depends on (capital, tier) only. -/
theorem C7_capitalFit : ∀ (capital : String) (tier : CapitalTier) (q : ℚ),
    (parseDec capital = some q →
      validateCapitalFit capital tier = capitalFitSpec q tier) ∧
    validateCapitalFit "" tier = none := by
  intro capital tier q
  constructor
  · intro h
    have hc : capital ≠ "" := by
      intro he
      subst he
      exact Option.noConfusion h
    unfold validateCapitalFit
    rw [if_neg hc, h]
    rfl
  · rfl

/-- C7 witness: the spec's end-to-end scenario — capital "2000000000" with
tier RETAIL parses to 2,000,000,000, and the advisory equals the spec rule
outcome, which is the RETAIL warning since 2,000,000,000 > 600,000,000. -/
theorem C7_capitalFit_witness :
    parseDec "2000000000" = some 2000000000 ∧
    validateCapitalFit "2000000000" CapitalTier.RETAIL =
      capitalFitSpec 2000000000 CapitalTier.RETAIL ∧
    capitalFitSpec 2000000000 CapitalTier.RETAIL =
      some CapitalWarning.warningRetail := by
  have hp : parseDec "2000000000" = some 2000000000 := by decide
  exact ⟨hp,
    (C7_capitalFit "2000000000" CapitalTier.RETAIL 2000000000).1 hp,
    by decide⟩

/-! ## Claim C8 — submission-eligibility predicate -/

set_option maxRecDepth 8000 in
/-- C8: the submission-eligibility gate holds exactly when ticker, price
and capital are nonempty, all eight fundamentals fields are nonempty,
top-broker codes and average price are nonempty, and the raw intelligence
text is strictly longer than 50 characters; at the boundary, a form state
with exactly 50 characters of raw intelligence is ineligible and the same
state with 51 characters is eligible. -/
theorem C8_eligibility :
    (∀ f : StockAnalysisInput, submissionEligible f = true ↔
      (f.ticker ≠ "" ∧ f.price ≠ "" ∧ f.capital ≠ "" ∧
       f.fundamentals.roe ≠ "" ∧ f.fundamentals.der ≠ "" ∧
       f.fundamentals.pbv ≠ "" ∧ f.fundamentals.per ≠ "" ∧
       f.fundamentals.npm ≠ "" ∧ f.fundamentals.growth ≠ "" ∧
       f.fundamentals.cfo ≠ "" ∧ f.fundamentals.fcf ≠ "" ∧
       f.bandarmology.topBrokers ≠ "" ∧
       f.bandarmology.bandarAvgPrice ≠ "" ∧
       50 < f.rawIntelligenceData.length)) ∧
    submissionEligible c8Input50 = false ∧
    submissionEligible c8Input51 = true := by
  refine ⟨?_, by decide, by decide⟩
  intro f
  simp [submissionEligible, isStepValid, fundamentalsValues,
    Bool.and_eq_true, and_assoc]

/-! ## Claim C9 — consistency-check ordering -/

/-- C9: the sequence `runConsistencyCheck` serializes and sends is the
input sorted by timestamp ascending with a stable sort: the sorted sequence
is a permutation of the input, pairwise nondecreasing in timestamp, and for
every timestamp value the entries carrying it appear in their original
relative order (their filtered subsequence is unchanged); and whenever the
sorted sequence is nonempty the issued request carries exactly the
serialization of that sorted sequence (with the fixed model, zero
temperature and fixed seed). -/
theorem C9_ordering : ∀ (serialize : List AnalysisResult → String)
    (history : List AnalysisResult),
    (consistencySort history).Perm history ∧
    (consistencySort history).Pairwise
      (fun a b => a.timestamp ≤ b.timestamp) ∧
    (∀ n : Int, (consistencySort history).filter
        (fun r => r.timestamp == n) =
      history.filter (fun r => r.timestamp == n)) ∧
    (∀ first rest, consistencySort history = first :: rest →
      runConsistencyCheckRequest serialize history =
        .ok { model := "gemini-3-flash-preview",
              prompt := "Analisa tren konsistensi untuk " ++ first.ticker ++
                ". Data: " ++ serialize (consistencySort history) ++
                ". Gunakan bahasa profesional dan berikan outlook trend jangka panjang.",
              temperature := 0, seed := 42069 }) := by
  intro serialize history
  refine ⟨consistencySort_perm history, consistencySort_pairwise history,
    consistencySort_filter_eq history, ?_⟩
  intro first rest h
  simp [runConsistencyCheckRequest, h]

/-- C9 witness: the spec's example — timestamps [300, 100, 200] for one
ticker are serialized in the order [100, 200, 300], and the issued request
wraps the serialization of that sorted sequence. -/
theorem C9_ordering_witness :
    consistencySort [mkRes "BBCA" 300, mkRes "BBCA" 100, mkRes "BBCA" 200] =
      [mkRes "BBCA" 100, mkRes "BBCA" 200, mkRes "BBCA" 300] ∧
    runConsistencyCheckRequest serializeFix
        [mkRes "BBCA" 300, mkRes "BBCA" 100, mkRes "BBCA" 200] =
      .ok { model := "gemini-3-flash-preview",
            prompt := "Analisa tren konsistensi untuk " ++
              (mkRes "BBCA" 100).ticker ++ ". Data: " ++
              serializeFix (consistencySort
                [mkRes "BBCA" 300, mkRes "BBCA" 100, mkRes "BBCA" 200]) ++
              ". Gunakan bahasa profesional dan berikan outlook trend jangka panjang.",
            temperature := 0, seed := 42069 } := by
  have hs : consistencySort
      [mkRes "BBCA" 300, mkRes "BBCA" 100, mkRes "BBCA" 200] =
        [mkRes "BBCA" 100, mkRes "BBCA" 200, mkRes "BBCA" 300] := by decide
  exact ⟨hs, (C9_ordering serializeFix
    [mkRes "BBCA" 300, mkRes "BBCA" 100, mkRes "BBCA" 200]).2.2.2
    (mkRes "BBCA" 100) [mkRes "BBCA" 200, mkRes "BBCA" 300] hs⟩

/-! ## Claim C10 — remove by identity key -/

/-- C10 counterexample: a legacy entry without an id has identity key equal
to its ticker "BBCA", yet `removeFromVault` passed that ticker as the key
leaves the archive unchanged — the removal predicate tests the `id` field
only and never falls back to the ticker. -/
theorem C10_counterexample :
    entryKey c10Legacy = Json.str "BBCA" ∧
    removeFromVault [c10Legacy] "BBCA" = [c10Legacy] :=
  ⟨rfl, rfl⟩

/-- C10 (amended): `removeFromVault` keeps exactly the entries whose `id`
field is not the given key — it removes every entry whose id is a string
equal to the key, keeps every entry lacking an id (even when that entry's
ticker equals the key), and is a no-op when no entry's id equals the key.
The id-falling-back-to-ticker identity key exists only in the CaseVault
UI's choice of which key to pass, not in the removal predicate. -/
theorem C10_amended : ∀ (vaultCases : List Json) (id : String) (c : Json),
    (c ∈ removeFromVault vaultCases id ↔
      c ∈ vaultCases ∧ idEqString (jsonGet c "id") id = false) ∧
    ((∀ c' ∈ vaultCases, idEqString (jsonGet c' "id") id = false) →
      removeFromVault vaultCases id = vaultCases) := by
  intro vaultCases id c
  constructor
  · simp [removeFromVault, List.mem_filter]
  · intro h
    unfold removeFromVault
    rw [List.filter_eq_self]
    intro a ha
    simp [h a ha]

/-- C10 amended witness at concrete entries: membership in the filtered
vault matches the id test, and removal with a key matching no id is a
no-op on a vault holding an id-keyed entry and a legacy entry. -/
theorem C10_amended_witness :
    (c10Keyed ∈ removeFromVault [c10Keyed, c10Legacy] "NOPE" ↔
      c10Keyed ∈ [c10Keyed, c10Legacy] ∧
        idEqString (jsonGet c10Keyed "id") "NOPE" = false) ∧
    removeFromVault [c10Keyed, c10Legacy] "NOPE" =
      [c10Keyed, c10Legacy] := by
  refine ⟨(C10_amended [c10Keyed, c10Legacy] "NOPE" c10Keyed).1, ?_⟩
  refine (C10_amended [c10Keyed, c10Legacy] "NOPE" c10Keyed).2 ?_
  intro c' hc'
  rcases List.mem_cons.mp hc' with h | h
  · rw [h]
    rfl
  · rw [List.mem_singleton.mp h]
    rfl

end TradeLogic
